import Mathlib

/-!
Verification development for the `node-red-contrib-amqp` core
(`src/core/resource.ts`, `src/core/pool.ts`, `src/core/subscriber.ts`,
and the `Sender` class).

The TypeScript code is asynchronous, single-threaded JavaScript.  We embed
it shallowly: the handler's mutable fields become a record `HState`, every
synchronous segment of the code (the stretch between two `await`
suspension points) becomes a Lean function from state to state plus the
list of events it emits, and the specific event-loop interleavings that
the claims exercise become explicit compositions of those segment
functions, in the order the JavaScript scheduler runs them.

`process.nextTick` only defers the delivery of `status` events relative
to events emitted synchronously later in the same segment; we record each
`status` event at its transition point and let theorems about the
`open`/`close`/`error`/`retry` stream filter `status` events out.
-/

namespace NRAmqp

variable {T : Type}

/-- `ResourceStatus` enum, resource.ts lines 5-11. -/
inductive ResourceStatus
  | Connecting
  | Connected
  | Error
  | Closing
  | Closed
deriving DecidableEq, Repr

/-- Events a `ResourceHandler` emits (`ResourceEvent`, resource.ts line 17;
`status` events carry the new status). -/
inductive Ev
  | statusEv (st : ResourceStatus)
  | openEv
  | closeEv
  | errorEv
  | retryEv
deriving DecidableEq, Repr

def Ev.isStatus : Ev → Bool
  | .statusEv _ => true
  | _ => false

/-- The non-`status` event stream (what `open`/`close`/`error`/`retry`
listeners observe). -/
def emitted (evs : List Ev) : List Ev :=
  evs.filter (fun e => !e.isStatus)

/-- Errors the handler code constructs. `isClosed` stands for the
`` `${name} is closed` `` error used both by `close()` on a closed handler
and by the fulfilment handler of `__connect` when it finds `Closing`;
`notAvailable` for `` `${name} is not available` `` (resource.ts line 78);
`aborted` for the `AbortError('Connection is aborted')` (line 193);
`factoryFailure` for a factory error that exhausted the retry budget. -/
inductive RErr
  | isClosed
  | notAvailable
  | aborted
  | factoryFailure
deriving DecidableEq, Repr

/-- The state of the `__resource` promise slot as observed at an `await`:
still pending, resolved (to the resource or to `null` after the `.catch`
handler of `__connect`), or replaced by the rejected promise that
`__setToClose` installs (resource.ts line 263). -/
inductive Slot (T : Type)
  | pending
  | value (t : Option T)
  | rejectedClosed
deriving DecidableEq, Repr

/-- A record of how a resource was torn down: through the caller-supplied
`closer` (resource.ts line 112) or through the resource's own `close`
(line 115). -/
inductive Teardown (T : Type)
  | viaCloser (t : T)
  | viaResClose (t : T)
deriving DecidableEq, Repr

/-- The mutable fields of `ResourceHandler` (resource.ts lines 35-43)
that the claims depend on, plus two instrumentation fields:
`factoryCalls` counts invocations of `__factory`, and `teardowns` records
every resource passed to the closer / `close()` teardown path. -/
structure HState (T : Type) where
  status : ResourceStatus
  err : Option RErr
  slot : Slot T
  closerPresent : Bool
  isReconnecting : Bool
  resListeners : Bool
  factoryCalls : Nat
  teardowns : List (Teardown T)
deriving DecidableEq, Repr

/-- Outcome of the promise returned by `close()`. `suspendedPending`
marks the case where `close()` reached `await this.__resource` while the
slot was still pending; the state then reflects the synchronous prefix
(status already set to `Closed`). -/
inductive CloseOut
  | resolved
  | rejectedAlreadyClosed
  | rejectedSlotClosed
  | suspendedPending
deriving DecidableEq, Repr

structure CloseRes (T : Type) where
  out : CloseOut
  state : HState T
  events : List Ev
deriving DecidableEq, Repr

/-- `ResourceHandler.close` (resource.ts lines 90-116).
* status `Closed`: reject with the `is closed` error (line 92);
* status `Connecting`: `__setStatus(Closing)` and resolve (lines 95-99);
* otherwise `__setStatus(Closed)` (line 101), `await this.__resource`
  (line 103), and if a resource is held remove its listeners (line 109)
  and run the caller-supplied closer, or the resource's own `close`
  (lines 111-115). A rejected slot makes the `await` throw, so `close()`
  rejects with that error. -/
def closeOp (s : HState T) : CloseRes T :=
  if s.status = .Closed then
    ⟨.rejectedAlreadyClosed, s, []⟩
  else if s.status = .Connecting then
    ⟨.resolved, { s with status := .Closing }, [.statusEv .Closing]⟩
  else
    let s1 := { s with status := .Closed }
    match s.slot with
    | .pending => ⟨.suspendedPending, s1, [.statusEv .Closed]⟩
    | .value none => ⟨.resolved, s1, [.statusEv .Closed]⟩
    | .value (some r) =>
        ⟨.resolved,
         { s1 with
            resListeners := false,
            teardowns := s1.teardowns ++
              [if s.closerPresent then .viaCloser r else .viaResClose r] },
         [.statusEv .Closed]⟩
    | .rejectedClosed => ⟨.rejectedSlotClosed, s1, [.statusEv .Closed]⟩

/-- Outcome of `ResourceHandler.resource` (resource.ts lines 74-82):
await the slot; reject with `is not available` when it resolved to
`null`, reject with the installed error when it was the rejected promise,
return the resource otherwise. -/
inductive ResOut (T : Type)
  | ok (t : T)
  | rejectsNotAvailable
  | rejectsClosed
  | suspends
deriving DecidableEq, Repr

def resourceOp (s : HState T) : ResOut T :=
  match s.slot with
  | .pending => .suspends
  | .value none => .rejectsNotAvailable
  | .value (some r) => .ok r
  | .rejectedClosed => .rejectsClosed

/-- Whether `__connect(false)` (resource.ts lines 173-183) would start a
new acquisition chain: it returns without doing anything when the status
is `Connecting`, `Connected`, `Closing` or `Closed`, i.e. only an
`Error`-status handler starts one. -/
def connectNFStartsChain (s : HState T) : Bool :=
  !(s.status = .Connecting || s.status = .Connected ||
    s.status = .Closing || s.status = .Closed)

/-- The fulfilment handler of the `__connect` chain when the status is
not `Closing` (resource.ts lines 216-221): `__subscribe(res)`, set status
`Connected`, emit `open`; the chain (and thereby `__resource`) fulfils
with the resource. -/
def thenConnected (t : T) (s : HState T) : HState T × List Ev :=
  ({ s with resListeners := true, status := .Connected, slot := .value (some t) },
   [.statusEv .Connected, .openEv])

/-- The rejection handler of the `__connect` chain (resource.ts lines
223-230): store the error, set status `Error`, emit `error`, resolve the
chain (and thereby `__resource`) with `null`. -/
def catchToNull (e : RErr) (s : HState T) : HState T × List Ev :=
  ({ s with err := some e, status := .Error, slot := .value none },
   [.statusEv .Error, .errorEv])

/-- How the first segment of `__setToClose` (resource.ts lines 232-244)
ends: an early return because a reconnect loop is in progress (line 239);
skipping the `connect()` call because `__attemptReconnect` (lines
276-281) found the status already `Connected`; starting a fresh
acquisition chain because `__connect(false)` ran on an `Error`-status
handler; or suspending at `connect()`'s `await this.__resource`. -/
inductive STCOut
  | earlyReconnecting
  | skipAwaitConnected
  | startsNewChain
  | suspendedOnResource
deriving DecidableEq, Repr

def setToCloseSeg1 (s : HState T) : STCOut × HState T :=
  if s.isReconnecting then (.earlyReconnecting, s)
  else if s.status = .Connected then (.skipAwaitConnected, s)
  else if connectNFStartsChain s then (.startsNewChain, s)
  else (.suspendedOnResource, s)

/-- The resumption of `__setToClose` once `await` of the resource slot
settles (resource.ts lines 246-272). If the `await` rejected, the `catch`
at line 252 stores the error and control falls through to the closure
block; otherwise, if the status is `Connected` the closure is skipped
(line 247); else the closure block (lines 261-267) replaces `__resource`
by a rejected promise, sets status `Closed` and emits `close`
(`this.removeAllListeners()` at line 266 clears the handler's own
listeners, which no claim depends on). -/
def setToCloseSeg2 (awaitRejected : Bool) (s : HState T) : HState T × List Ev :=
  if awaitRejected then
    ({ s with err := some .isClosed, slot := .rejectedClosed, status := .Closed },
     [.statusEv .Closed, .closeEv])
  else if s.status = .Connected then (s, [])
  else
    ({ s with slot := .rejectedClosed, status := .Closed },
     [.statusEv .Closed, .closeEv])

/-- Settlement of the `__connect` chain when a factory attempt fulfils
(resource.ts lines 207-222), composed with the continuations the
JavaScript event loop runs when the status is `Closing`: the fulfilment
handler calls `__setToClose()`, which runs synchronously up to
`connect()`'s `await this.__resource` (the chain itself), the handler
returns a rejected promise, the `.catch` handler settles the chain with
`null`, and `__setToClose` then resumes past its `await`.  When
`__setToClose` returned before suspending (reconnect loop in progress),
only the `.catch` handler remains to run.  The last two arms are
unreachable when the status is `Closing`: `__attemptReconnect` cannot
find `Connected`, and `__connect(false)` is a no-op. -/
def resolveFulfilled (t : T) (s : HState T) : HState T × List Ev :=
  if s.status = .Closing then
    match setToCloseSeg1 s with
    | (.suspendedOnResource, s1) =>
        let (s2, e2) := catchToNull .isClosed s1
        let (s3, e3) := setToCloseSeg2 false s2
        (s3, e2 ++ e3)
    | (.earlyReconnecting, s1) => catchToNull .isClosed s1
    | (.skipAwaitConnected, s1) => catchToNull .isClosed s1
    | (.startsNewChain, s1) => catchToNull .isClosed s1
  else thenConnected t s

/-- Settlement of the chain when a scheduled retry-callback invocation
finds the status `Closing` (resource.ts lines 190-194): it calls
`__setToClose()` — which suspends awaiting the chain — and throws an
`AbortError`; `p-retry` rejects immediately without calling
`onFailedAttempt`, the `.catch` handler settles the chain with `null`,
and `__setToClose` resumes. -/
def resolveAbortWhileClosing (s : HState T) : HState T × List Ev :=
  match setToCloseSeg1 s with
  | (.suspendedOnResource, s1) =>
      let (s2, e2) := catchToNull .aborted s1
      let (s3, e3) := setToCloseSeg2 false s2
      (s3, e2 ++ e3)
  | (_, s1) => catchToNull .aborted s1

/-- Settlement of the chain when the final factory attempt fails with the
retry budget exhausted: `p-retry` rejects with the factory error and only
the `.catch` handler (resource.ts lines 223-230) runs — `__setToClose`
is never invoked on this path. -/
def resolveFinalFailure (s : HState T) : HState T × List Ev :=
  catchToNull .factoryFailure s

/-- One scripted outcome of a `__factory()` invocation. -/
inductive FOutcome (T : Type)
  | fail
  | success (t : T)
deriving DecidableEq, Repr

/-- How the `p-retry` loop around the factory ends. -/
inductive ChainEnd (T : Type)
  | fulfilled (t : T)
  | finalFailure
  | abortedClosing
  | scriptRanOut
deriving DecidableEq, Repr

/-- One `__factory` invocation happened. -/
def bump (s : HState T) : HState T :=
  { s with factoryCalls := s.factoryCalls + 1 }

/-- The `p-retry` loop of `__connect` (resource.ts lines 188-206) over a
scripted sequence of factory outcomes.  Each scheduled invocation of the
retry callback first checks for `Closing` (line 190; the `__setToClose`
call and `AbortError` are composed in by the caller via
`resolveAbortWhileClosing`), then invokes the factory.  On a failed
attempt `onFailedAttempt` emits `retry` (lines 200-202); `p-retry`
retries while `retriesLeft` attempts remain and otherwise rejects with
the final error — `onFailedAttempt` runs for the final failure too. -/
def runRetryLoop (script : List (FOutcome T)) (retriesLeft : Nat) (s : HState T) :
    ChainEnd T × HState T × List Ev :=
  if s.status = .Closing then (.abortedClosing, s, [])
  else
    match script, retriesLeft with
    | [], _ => (.scriptRanOut, s, [])
    | .success t :: _, _ => (.fulfilled t, bump s, [])
    | .fail :: _, 0 => (.finalFailure, bump s, [.retryEv])
    | .fail :: rest, m + 1 =>
        let r := runRetryLoop rest m (bump s)
        (r.1, r.2.1, .retryEv :: r.2.2)

/-- A full run of `__connect(true)` (resource.ts lines 173-231) whose
chain settles without outside interference: set status `Connecting`,
clear the error (lines 185-186), run the retry loop over the script, and
settle the chain through the fulfilment / rejection handlers. -/
def connectRun (retries : Nat) (script : List (FOutcome T)) (s : HState T) :
    HState T × List Ev :=
  match runRetryLoop script retries { s with status := .Connecting, err := none } with
  | (.fulfilled t, s1, evs1) =>
      let (s2, evs2) := resolveFulfilled t s1
      (s2, .statusEv .Connecting :: (evs1 ++ evs2))
  | (.finalFailure, s1, evs1) =>
      let (s2, evs2) := resolveFinalFailure s1
      (s2, .statusEv .Connecting :: (evs1 ++ evs2))
  | (.abortedClosing, s1, evs1) =>
      let (s2, evs2) := resolveAbortWhileClosing s1
      (s2, .statusEv .Connecting :: (evs1 ++ evs2))
  | (.scriptRanOut, s1, evs1) => (s1, .statusEv .Connecting :: evs1)

/-- `ConnectionSettings` (settings.ts, reproduced among the unnamed
sources). -/
structure ConnectionSettings where
  host : String
  port : Nat
  vhost : String
  keepAlive : Nat
  useTLS : Bool
  verifyServerCert : Bool
  useCA : Bool
  ca : String
  useTopology : Bool
  topology : String
  username : String
  password : String
deriving DecidableEq, Repr

/-- Modelled from the spec: the `object-hash` structural fingerprint used
by pool.ts (the hashing library itself is outside the repository). The
spec requires a deterministic structural hash that identifies
structurally equal settings (credentials included) and separates
structurally different ones, so we model the fingerprint as the settings
value itself. -/
def toHash (s : ConnectionSettings) : ConnectionSettings := s

/-- The module-level `POOL` of pool.ts (lines 5-7): a mapping from
fingerprints to `Connection` instances.  Connection identity is modelled
by an allocation counter: `nextId` is the id the next `new Connection`
receives, and `closedConns` records every pooled connection on which
`close()` was invoked. -/
structure Pool where
  entries : List (ConnectionSettings × Nat)
  nextId : Nat
  closedConns : List Nat
deriving DecidableEq, Repr

def Pool.find (p : Pool) (h : ConnectionSettings) : Option Nat :=
  (p.entries.find? (fun e => decide (e.1 = h))).map (·.2)

/-- `open` (pool.ts lines 9-20): hash the settings; return the pooled
connection when one is registered under the hash, otherwise construct a
new `Connection`, register it and return it.  The `Bool` component
records whether a new connection was constructed. -/
def poolOpen (settings : ConnectionSettings) (p : Pool) : Nat × Bool × Pool :=
  let hash := toHash settings
  match p.find hash with
  | some id => (id, false, p)
  | none =>
      (p.nextId, true,
       { p with
          entries := p.entries ++ [(hash, p.nextId)],
          nextId := p.nextId + 1 })

/-- `close` (pool.ts lines 22-33): hash the settings; when no connection
is registered, resolve without touching the pool; otherwise delete the
entry and call `close()` on the connection. -/
def poolClose (settings : ConnectionSettings) (p : Pool) : Pool :=
  let hash := toHash settings
  match p.find hash with
  | none => p
  | some id =>
      { p with
         entries := p.entries.filter (fun e => decide (¬ e.1 = hash)),
         closedConns := p.closedConns ++ [id] }

/-- Well-formedness of the pool: every registered connection id was
allocated (is below `nextId`) and ids are pairwise distinct — both hold
of every pool built by `poolOpen`/`poolClose` from the empty pool, since
each construction takes a fresh `nextId`. -/
def Pool.WF (p : Pool) : Prop :=
  (∀ e ∈ p.entries, e.2 < p.nextId) ∧
  p.entries.Pairwise (fun a b => a.2 ≠ b.2)

/-- A JSON payload, as handed to `JSON.stringify` by `Sender.send`. -/
inductive Json
  | null
  | bool (b : Bool)
  | num (n : Int)
  | str (s : String)
  | arr (elems : List Json)
  | obj (fields : List (String × Json))
deriving Repr

/-- `JSON.stringify` escaping for one character inside a string literal. -/
def escapeChar (c : Char) : String :=
  if c = '"' then "\\\""
  else if c = '\\' then "\\\\"
  else if c = '\n' then "\\n"
  else if c = '\r' then "\\r"
  else if c = '\t' then "\\t"
  else if c.toNat = 8 then "\\b"
  else if c.toNat = 12 then "\\f"
  else if c.toNat < 32 then
    let hexDigit (n : Nat) : Char := if n < 10 then Char.ofNat (48 + n) else Char.ofNat (87 + n)
    String.mk ['\\', 'u', '0', '0', hexDigit (c.toNat / 16), hexDigit (c.toNat % 16)]
  else String.mk [c]

def escapeString (s : String) : String :=
  "\"" ++ String.join (s.data.map escapeChar) ++ "\""

mutual
/-- `JSON.stringify` (as invoked by `Sender.send`). -/
def jsonStringify : Json → String
  | .null => "null"
  | .bool true => "true"
  | .bool false => "false"
  | .num n => toString n
  | .str s => escapeString s
  | .arr xs => "[" ++ jsonStringifyList xs ++ "]"
  | .obj fs => "\x7b" ++ jsonStringifyFields fs ++ "\x7d"

def jsonStringifyList : List Json → String
  | [] => ""
  | [x] => jsonStringify x
  | x :: y :: xs => jsonStringify x ++ "," ++ jsonStringifyList (y :: xs)

def jsonStringifyFields : List (String × Json) → String
  | [] => ""
  | [(k, v)] => escapeString k ++ ":" ++ jsonStringify v
  | (k, v) :: f :: fs =>
      escapeString k ++ ":" ++ jsonStringify v ++ "," ++ jsonStringifyFields (f :: fs)
end

/-- UTF-8 encoding of one character (`Buffer.from(·, 'utf8')`). -/
def utf8EncodeChar (c : Char) : List Nat :=
  let n := c.toNat
  if n < 128 then [n]
  else if n < 2048 then [192 + n / 64, 128 + n % 64]
  else if n < 65536 then [224 + n / 4096, 128 + n / 64 % 64, 128 + n % 64]
  else [240 + n / 262144, 128 + n / 4096 % 64, 128 + n / 64 % 64, 128 + n % 64]

/-- `Buffer.from(s, 'utf8')` as a byte list. -/
def utf8Bytes (s : String) : List Nat :=
  s.data.flatMap utf8EncodeChar

/-- An AMQP channel as `Sender.send` observes it: `publish` returns the
broker's flow-control boolean. -/
structure Channel where
  flow : Bool
deriving DecidableEq, Repr

/-- One `ch.publish(exchange, topic, bytes, options)` call.  Publish
options are passed through untouched; we model them as an opaque token. -/
structure PublishRecord where
  exchange : String
  routingKey : String
  content : List Nat
  options : Nat
deriving DecidableEq, Repr

/-- A `Sender`: its configured exchange and the state of its
`ResourceHandler<Channel>`. -/
structure SenderState where
  exchange : String
  handler : HState Channel
deriving DecidableEq, Repr

inductive SendOut
  | ok (flowAck : Bool) (pub : PublishRecord)
  | errUnavailable
  | errClosed
  | suspends
deriving DecidableEq, Repr

/-- `Sender.send(topic, payload, options)`: obtain the channel via the
handler's `resource()`, then
`ch.publish(exchange, topic, Buffer.from(JSON.stringify(payload), 'utf8'), options)`,
returning the broker's flow-control boolean. -/
def senderSend (sn : SenderState) (topic : String) (payload : Json)
    (options : Nat) : SendOut :=
  match resourceOp sn.handler with
  | .suspends => .suspends
  | .rejectsNotAvailable => .errUnavailable
  | .rejectsClosed => .errClosed
  | .ok ch =>
      .ok ch.flow
        ⟨sn.exchange, topic, utf8Bytes (jsonStringify payload), options⟩

/-- `Sender.close()`: invokes the handler's `close()` without awaiting
it, so the promise the caller receives always resolves; the handler
outcome (possibly a rejection) proceeds unobserved. -/
def senderClose (s : HState Channel) : Except RErr Unit × CloseRes Channel :=
  (.ok (), closeOp s)

/-- `Subscriber.close()` (subscriber.ts lines 43-45): same fire-and-forget
shape as `Sender.close()`. -/
def subscriberClose (s : HState Channel) : Except RErr Unit × CloseRes Channel :=
  (.ok (), closeOp s)

/-- A delivered AMQP message as the subscriber's consume callback
receives it: routing key and payload bytes. -/
structure ConsumeMessage where
  routingKey : String
  content : List Nat
deriving DecidableEq, Repr

/-- The actions of the Subscriber's channel factory (subscriber.ts lines
13-28), in execution order. -/
inductive SubStep
  | createChannel
  | consume (queue : String) (noAck : Bool)
  | returnChannel
deriving DecidableEq, Repr

/-- The Subscriber's factory: `conn.createChannel()`, then
`ch.consume(queue, cb, noAck true)` (awaited), then `return ch`. -/
def subscriberFactorySteps (queue : String) : List SubStep :=
  [.createChannel, .consume queue true, .returnChannel]

inductive SubEv
  | message (m : ConsumeMessage)
deriving DecidableEq, Repr

/-- The consume callback (subscriber.ts lines 17-21): a `null` message is
dropped, any other message is re-emitted as a `message` event. -/
def subscriberOnMessage (msg : Option ConsumeMessage) : List SubEv :=
  match msg with
  | none => []
  | some m => [.message m]

/-! ## Theorems -/

/-- C1: the claim as stated is false. For a handler closed from
`Connected`, `close()` completes with the handler terminally `Closed`,
yet a subsequent `resource()` call does not reject: `close()` never
clears the `__resource` slot (resource.ts lines 90-116), so the slot
still fulfils with the old — now torn-down — resource and `resource()`
resolves with it. -/
theorem C1_counterexample :
    (closeOp (⟨.Connected, none, .value (some 5), false, false, true, 1, []⟩ :
        HState Nat)).out = .resolved
  ∧ (closeOp (⟨.Connected, none, .value (some 5), false, false, true, 1, []⟩ :
        HState Nat)).state.status = .Closed
  ∧ resourceOp (closeOp (⟨.Connected, none, .value (some 5), false, false, true, 1, []⟩ :
        HState Nat)).state = .ok 5 := by
  decide

/-- C1 (amended): for every handler on which `close()` has completed its
teardown (resolved, ending in `Closed`), the handler is terminally
`Closed`: a further `close()` rejects with the `AlreadyClosed` error
without emitting anything, `__connect(false)` — the only acquisition path
reachable from public calls — starts no new chain, the factory-call count
is unchanged by the close, and a subsequent `resource()` call rejects
with `Unavailable` when the last attempt had resolved to no resource —
but when the handler still held a resource, `resource()` resolves with
that stale resource instead of rejecting. -/
theorem C1_amended (T : Type) (s : HState T)
    (h1 : (closeOp s).out = .resolved)
    (h2 : (closeOp s).state.status = .Closed) :
    closeOp ((closeOp s).state) = ⟨.rejectedAlreadyClosed, (closeOp s).state, []⟩
  ∧ connectNFStartsChain ((closeOp s).state) = false
  ∧ (closeOp s).state.factoryCalls = s.factoryCalls
  ∧ (s.slot = .value none → resourceOp ((closeOp s).state) = .rejectsNotAvailable)
  ∧ (∀ r, s.slot = .value (some r) → resourceOp ((closeOp s).state) = .ok r) := by
  rcases s with ⟨st, er, sl, cp, ir, rl, fc, td⟩
  cases st <;> rcases sl with _ | (_ | r) | _ <;>
    simp_all [closeOp, resourceOp, connectNFStartsChain]

/-- Witness for C1 (amended) at a concrete closed-from-`Connected`
handler. -/
theorem C1_amended_witness :
    closeOp ((closeOp (⟨.Connected, none, .value (some 4), false, false, true, 1, []⟩ :
        HState Nat)).state)
      = ⟨.rejectedAlreadyClosed,
         (closeOp (⟨.Connected, none, .value (some 4), false, false, true, 1, []⟩ :
            HState Nat)).state, []⟩
  ∧ resourceOp ((closeOp (⟨.Connected, none, .value (some 4), false, false, true, 1, []⟩ :
        HState Nat)).state) = .ok 4 :=
  ⟨(C1_amended Nat _ (by decide) (by decide)).1,
   (C1_amended Nat _ (by decide) (by decide)).2.2.2.2 4 (by decide)⟩

/-- C2: the claim as stated is false. With a caller-supplied closer
present, closing during `Connecting` and letting the in-flight attempt
fulfil ends the handler in `Closed` — but the freshly created resource is
never discarded through the closer/close path (the fulfilment handler at
resource.ts lines 208-214 merely rejects the chain and drops it, and
`__setToClose` has no access to it): the teardown record stays empty.
Moreover, when the chain instead settles through a budget-exhausting
final factory failure, only the `.catch` handler runs and the handler
ends in `Error`, not `Closed`. -/
theorem C2_counterexample :
    (resolveFulfilled 7 (⟨.Closing, none, .pending, true, false, false, 1, []⟩ :
        HState Nat)).1.status = .Closed
  ∧ (resolveFulfilled 7 (⟨.Closing, none, .pending, true, false, false, 1, []⟩ :
        HState Nat)).1.teardowns = []
  ∧ Teardown.viaCloser 7 ∉
      (resolveFulfilled 7 (⟨.Closing, none, .pending, true, false, false, 1, []⟩ :
        HState Nat)).1.teardowns
  ∧ Teardown.viaResClose 7 ∉
      (resolveFulfilled 7 (⟨.Closing, none, .pending, true, false, false, 1, []⟩ :
        HState Nat)).1.teardowns
  ∧ (resolveFinalFailure (⟨.Closing, none, .pending, true, false, false, 1, []⟩ :
        HState Nat)).1.status = .Error := by
  decide

/-- C2 (amended): calling `close()` on a `Connecting` handler immediately
sets status `Closing` and resolves.  Provided no reconnection loop is in
progress, when the in-flight attempt later fulfils, or is aborted at its
next scheduled retry invocation, the handler tears down without ever
transitioning to `Connected` (no `Connected` status event, no `open`)
and ends in `Closed` — but the freshly created resource of a fulfilled
attempt is abandoned: its closer/close path is never invoked.  When the
chain instead settles through a budget-exhausting final factory failure,
the handler ends in `Error`, not `Closed`. -/
theorem C2_amended (T : Type) :
    (∀ s : HState T, s.status = .Connecting →
        closeOp s = ⟨.resolved, { s with status := .Closing }, [.statusEv .Closing]⟩)
  ∧ (∀ (t : T) (s : HState T), s.status = .Closing → s.isReconnecting = false →
        (resolveFulfilled t s).1.status = .Closed
      ∧ (resolveFulfilled t s).1.teardowns = s.teardowns
      ∧ Ev.statusEv .Connected ∉ (resolveFulfilled t s).2
      ∧ Ev.openEv ∉ (resolveFulfilled t s).2)
  ∧ (∀ s : HState T, s.status = .Closing → s.isReconnecting = false →
        (resolveAbortWhileClosing s).1.status = .Closed
      ∧ Ev.statusEv .Connected ∉ (resolveAbortWhileClosing s).2
      ∧ Ev.openEv ∉ (resolveAbortWhileClosing s).2)
  ∧ (∀ s : HState T, (resolveFinalFailure s).1.status = .Error) := by
  refine ⟨fun s h => ?_, fun t s h hr => ?_, fun s h hr => ?_, fun s => ?_⟩
  · simp [closeOp, h]
  · simp [resolveFulfilled, h, setToCloseSeg1, hr, connectNFStartsChain,
      catchToNull, setToCloseSeg2]
  · simp [resolveAbortWhileClosing, setToCloseSeg1, hr, h, connectNFStartsChain,
      catchToNull, setToCloseSeg2]
  · simp [resolveFinalFailure, catchToNull]

/-- Witness for C2 (amended) at a concrete handler closed while
`Connecting`, for both the fulfilled and the aborted resolution. -/
theorem C2_amended_witness :
    (resolveFulfilled 9 (⟨.Closing, none, .pending, false, false, false, 1, []⟩ :
        HState Nat)).1.status = .Closed
  ∧ (resolveAbortWhileClosing (⟨.Closing, none, .pending, false, false, false, 1, []⟩ :
        HState Nat)).1.status = .Closed :=
  ⟨((C2_amended Nat).2.1 9 _ (by decide) (by decide)).1,
   ((C2_amended Nat).2.2.1 _ (by decide) (by decide)).1⟩

/-- C3: the claim as stated is false. On a `Connected` handler with a
caller-supplied closer, `close()` never transitions to `Closing` — it
sets status directly to `Closed` (resource.ts line 101) — and never
emits a `close` event: the only event of the whole call is the `Closed`
status broadcast, even though the closer is duly invoked. -/
theorem C3_counterexample :
    (closeOp (⟨.Connected, none, .value (some 3), true, false, true, 1, []⟩ :
        HState Nat)).events = [.statusEv .Closed]
  ∧ Ev.statusEv .Closing ∉
      (closeOp (⟨.Connected, none, .value (some 3), true, false, true, 1, []⟩ :
        HState Nat)).events
  ∧ Ev.closeEv ∉
      (closeOp (⟨.Connected, none, .value (some 3), true, false, true, 1, []⟩ :
        HState Nat)).events
  ∧ (closeOp (⟨.Connected, none, .value (some 3), true, false, true, 1, []⟩ :
        HState Nat)).out = .resolved
  ∧ (closeOp (⟨.Connected, none, .value (some 3), true, false, true, 1, []⟩ :
        HState Nat)).state.teardowns = [.viaCloser 3] := by
  decide

/-- C3 (amended): for every handler not in status `Connecting` or
`Closed` whose resource slot has settled to a value, `close()`
transitions the handler directly to `Closed` (no intermediate `Closing`
and no `close` event — the only emission is the `Closed` status
broadcast), awaits the current resource and, when one is held, removes
its listeners and invokes the caller-supplied closer on it (or the
resource's own close when no closer was supplied). -/
theorem C3_amended (T : Type) (s : HState T)
    (h1 : s.status ≠ .Connecting) (h2 : s.status ≠ .Closed) :
    (∀ r, s.slot = .value (some r) →
        closeOp s
          = ⟨.resolved,
             { s with
                status := .Closed,
                resListeners := false,
                teardowns := s.teardowns ++
                  [if s.closerPresent then .viaCloser r else .viaResClose r] },
             [.statusEv .Closed]⟩)
  ∧ (s.slot = .value none →
        closeOp s = ⟨.resolved, { s with status := .Closed }, [.statusEv .Closed]⟩) := by
  constructor
  · intro r hr
    simp [closeOp, h1, h2, hr]
  · intro hr
    simp [closeOp, h1, h2, hr]

/-- Witness for C3 (amended) on a concrete `Connected` handler without a
caller-supplied closer: the resource's own close is used. -/
theorem C3_amended_witness :
    closeOp (⟨.Connected, none, .value (some 6), false, false, true, 2, []⟩ :
        HState Nat)
      = ⟨.resolved,
         ⟨.Closed, none, .value (some 6), false, false, false, 2, [.viaResClose 6]⟩,
         [.statusEv .Closed]⟩ := by
  have h := (C3_amended Nat
      ⟨.Connected, none, .value (some 6), false, false, true, 2, []⟩
      (by decide) (by decide)).1 6 (by decide)
  simpa using h

/-- A successful pool lookup returns the id of a registered entry with
the looked-up fingerprint. -/
theorem Pool.find_spec (p : Pool) (h : ConnectionSettings) (id : Nat)
    (hf : p.find h = some id) : ∃ e ∈ p.entries, e.1 = h ∧ e.2 = id := by
  unfold Pool.find at hf
  obtain ⟨e, he, rfl⟩ : ∃ e, p.entries.find? (fun e => decide (e.1 = h)) = some e ∧ e.2 = id := by
    cases hfe : p.entries.find? (fun e => decide (e.1 = h)) with
    | none => simp [hfe] at hf
    | some e => exact ⟨e, rfl, by simpa [hfe] using hf⟩
  exact ⟨e, List.mem_of_find?_eq_some he, by simpa using List.find?_some he, rfl⟩

/-- Registered ids are below the allocation counter. -/
theorem Pool.find_lt_nextId (p : Pool) (hwf : p.WF) (h : ConnectionSettings)
    (id : Nat) (hf : p.find h = some id) : id < p.nextId := by
  obtain ⟨e, hm, _, hv⟩ := Pool.find_spec p h id hf
  exact hv ▸ hwf.1 e hm

/-- In a well-formed pool, entries registered under different
fingerprints hold distinct connections. -/
theorem Pool.find_ne_of_ne (p : Pool) (hwf : p.WF) (h1 h2 : ConnectionSettings)
    (id1 id2 : Nat) (hne : h1 ≠ h2)
    (hf1 : p.find h1 = some id1) (hf2 : p.find h2 = some id2) : id1 ≠ id2 := by
  obtain ⟨e1, hm1, hk1, hv1⟩ := Pool.find_spec p h1 id1 hf1
  obtain ⟨e2, hm2, hk2, hv2⟩ := Pool.find_spec p h2 id2 hf2
  have hee : e1 ≠ e2 := fun hc => hne (hk1 ▸ hk2 ▸ congrArg Prod.fst hc)
  have hsym : Symmetric (fun a b : ConnectionSettings × Nat => a.2 ≠ b.2) :=
    fun _ _ hab => Ne.symm hab
  have hne12 := List.Pairwise.forall hsym hwf.2 hm1 hm2 hee
  exact hv1 ▸ hv2 ▸ hne12

/-- Lookup in a pool extended with a single fresh entry. -/
theorem Pool.find_extend (entries : List (ConnectionSettings × Nat))
    (n : Nat) (cl : List Nat) (h h' : ConnectionSettings)
    (hnone : (Pool.mk entries n cl).find h' = none) :
    (Pool.mk (entries ++ [(h, n)]) (n + 1) cl).find h'
      = if h = h' then some n else none := by
  unfold Pool.find at hnone ⊢
  rw [List.find?_append]
  cases hfe : entries.find? (fun e => decide (e.1 = h')) with
  | none =>
      by_cases hhh : h = h' <;> simp [hhh]
  | some e => simp [hfe] at hnone

/-- C5: for all structurally equal settings the pool returns the same
connection instance, and for structurally different settings distinct
instances (in any well-formed pool — in particular any pool built from
the empty one). -/
theorem C5_pool_dedup (p : Pool) (S1 S2 : ConnectionSettings) (hwf : p.WF) :
    (S1 = S2 → (poolOpen S2 (poolOpen S1 p).2.2).1 = (poolOpen S1 p).1)
  ∧ (S1 ≠ S2 → (poolOpen S2 (poolOpen S1 p).2.2).1 ≠ (poolOpen S1 p).1) := by
  cases hf1 : p.find S1 with
  | some id =>
      constructor
      · rintro rfl
        simp [poolOpen, toHash, hf1]
      · intro hne
        cases hf2 : p.find S2 with
        | some id2 =>
            simp only [poolOpen, toHash, hf1, hf2]
            exact Pool.find_ne_of_ne p hwf S2 S1 id2 id (Ne.symm hne) hf2 hf1
        | none =>
            simp only [poolOpen, toHash, hf1, hf2]
            exact Nat.ne_of_gt (Pool.find_lt_nextId p hwf S1 id hf1)
  | none =>
      obtain ⟨entries, n, cl⟩ := p
      constructor
      · rintro rfl
        have hfind : (Pool.mk (entries ++ [(S1, n)]) (n + 1) cl).find S1 = some n := by
          rw [Pool.find_extend entries n cl S1 S1 hf1]
          simp
        simp [poolOpen, toHash, hf1, hfind]
      · intro hne
        cases hf2 : (Pool.mk entries n cl).find S2 with
        | some id2 =>
            have hf2' : (Pool.mk (entries ++ [(S1, n)]) (n + 1) cl).find S2 = some id2 := by
              unfold Pool.find at hf2 ⊢
              rw [List.find?_append]
              cases hfe : entries.find? (fun e => decide (e.1 = S2)) with
              | none => simp [hfe] at hf2
              | some e => simpa [hfe] using hf2
            simp only [poolOpen, toHash, hf1, hf2']
            have : id2 < n := Pool.find_lt_nextId _ hwf S2 id2 hf2
            omega
        | none =>
            have hf2' : (Pool.mk (entries ++ [(S1, n)]) (n + 1) cl).find S2 = none := by
              rw [Pool.find_extend entries n cl S1 S2 hf2, if_neg hne]
            simp only [poolOpen, toHash, hf1, hf2']
            omega

/-- Witness for C5: a well-formed one-entry pool, equal settings reuse
the instance, a different vhost yields a distinct instance. -/
theorem C5_pool_dedup_witness :
    (poolOpen ⟨"localhost", 5672, "/", 0, false, false, false, "", false, "", "guest", "guest"⟩
        (poolOpen ⟨"localhost", 5672, "/", 0, false, false, false, "", false, "", "guest", "guest"⟩
          (Pool.mk [] 0 [])).2.2).1
      = (poolOpen ⟨"localhost", 5672, "/", 0, false, false, false, "", false, "", "guest", "guest"⟩
          (Pool.mk [] 0 [])).1
  ∧ (poolOpen ⟨"localhost", 5672, "/other", 0, false, false, false, "", false, "", "guest", "guest"⟩
        (poolOpen ⟨"localhost", 5672, "/", 0, false, false, false, "", false, "", "guest", "guest"⟩
          (Pool.mk [] 0 [])).2.2).1
      ≠ (poolOpen ⟨"localhost", 5672, "/", 0, false, false, false, "", false, "", "guest", "guest"⟩
          (Pool.mk [] 0 [])).1 :=
  ⟨(C5_pool_dedup (Pool.mk [] 0 []) _ _ ⟨by simp, by simp⟩).1 rfl,
   (C5_pool_dedup (Pool.mk [] 0 []) _ _ ⟨by simp, by simp⟩).2 (by decide)⟩

/-- Lookup after deleting a fingerprint finds nothing under it. -/
theorem Pool.find_filter_self (entries : List (ConnectionSettings × Nat))
    (n : Nat) (cl : List Nat) (h : ConnectionSettings) :
    (Pool.mk (entries.filter (fun e => decide (¬ e.1 = h))) n cl).find h = none := by
  unfold Pool.find
  rw [Option.map_eq_none', List.find?_eq_none]
  intro e he
  have := (List.mem_filter.mp he).2
  simpa using this

/-- C6: `pool.close(settings)` is a no-op when no connection is
registered under the settings' fingerprint; when one is registered it
removes the entry and closes that connection, so that a subsequent
`pool.open` with the same settings constructs a fresh connection
(distinct from the closed one). -/
theorem C6_pool_close (p : Pool) (S : ConnectionSettings) (hwf : p.WF) :
    (p.find (toHash S) = none → poolClose S p = p)
  ∧ (∀ id, p.find (toHash S) = some id →
        (poolClose S p).closedConns = p.closedConns ++ [id]
      ∧ (poolClose S p).find (toHash S) = none
      ∧ (poolOpen S (poolClose S p)).2.1 = true
      ∧ (poolOpen S (poolClose S p)).1 ≠ id) := by
  constructor
  · intro hf
    simp [poolClose, toHash] at hf ⊢
    rw [hf]
  · intro id hf
    have hlt : id < p.nextId := Pool.find_lt_nextId p hwf (toHash S) id hf
    obtain ⟨entries, n, cl⟩ := p
    have hclose : poolClose S (Pool.mk entries n cl)
        = Pool.mk (entries.filter (fun e => decide (¬ e.1 = toHash S))) n (cl ++ [id]) := by
      simp only [poolClose]
      rw [hf]
    have hnone := Pool.find_filter_self entries n (cl ++ [id]) (toHash S)
    refine ⟨by rw [hclose], by rw [hclose]; exact hnone, ?_, ?_⟩
    · rw [hclose]
      simp only [poolOpen, toHash] at hnone ⊢
      rw [hnone]
    · rw [hclose]
      simp only [poolOpen, toHash] at hnone ⊢
      rw [hnone]
      simpa using Nat.ne_of_gt hlt

/-- Witness for C6 at the spec's scenario settings registered in a
one-entry pool. -/
theorem C6_pool_close_witness :
    (poolClose ⟨"localhost", 5672, "/", 0, false, false, false, "", false, "", "guest", "guest"⟩
        (Pool.mk [(⟨"localhost", 5672, "/", 0, false, false, false, "", false, "", "guest", "guest"⟩, 0)] 1 [])).closedConns
      = [0]
  ∧ (poolOpen ⟨"localhost", 5672, "/", 0, false, false, false, "", false, "", "guest", "guest"⟩
        (poolClose ⟨"localhost", 5672, "/", 0, false, false, false, "", false, "", "guest", "guest"⟩
          (Pool.mk [(⟨"localhost", 5672, "/", 0, false, false, false, "", false, "", "guest", "guest"⟩, 0)] 1 []))).2.1
      = true :=
  ⟨by
      have h := (C6_pool_close
        (Pool.mk [(⟨"localhost", 5672, "/", 0, false, false, false, "", false, "", "guest", "guest"⟩, 0)] 1 [])
        ⟨"localhost", 5672, "/", 0, false, false, false, "", false, "", "guest", "guest"⟩
        ⟨by simp, by simp⟩).2 0 (by decide)
      simpa using h.1,
   by
      have h := (C6_pool_close
        (Pool.mk [(⟨"localhost", 5672, "/", 0, false, false, false, "", false, "", "guest", "guest"⟩, 0)] 1 [])
        ⟨"localhost", 5672, "/", 0, false, false, false, "", false, "", "guest", "guest"⟩
        ⟨by simp, by simp⟩).2 0 (by decide)
      exact h.2.2.1⟩

/-- C7: for every handler on which `close()` has completed its full
teardown (the call resolved and left the handler `Closed`), a second
`close()` rejects with the `AlreadyClosed` error (resource.ts lines
91-93) and emits nothing — in particular no second `close` event. -/
theorem C7_second_close_rejects (T : Type) (s : HState T)
    (h1 : (closeOp s).out = .resolved)
    (h2 : (closeOp s).state.status = .Closed) :
    (closeOp ((closeOp s).state)).out = .rejectedAlreadyClosed
  ∧ (closeOp ((closeOp s).state)).events = []
  ∧ Ev.closeEv ∉ (closeOp ((closeOp s).state)).events := by
  generalize hgen : (closeOp s).state = s2 at h2 ⊢
  refine ⟨?_, ?_, ?_⟩ <;> simp [closeOp, h2]

/-- A run of the retry loop over `n` scripted failures followed by a
success never observes `Closing` when started in `Connecting` (the loop
does not change the status), invokes the factory `n + 1` times, emits
one `retry` per failed attempt, and fulfils with the resource. -/
theorem runRetryLoop_script (T : Type) (t : T) :
    ∀ (n m : Nat) (s : HState T), n ≤ m → s.status = .Connecting →
      runRetryLoop (List.replicate n .fail ++ [.success t]) m s
        = (.fulfilled t, { s with factoryCalls := s.factoryCalls + (n + 1) },
           List.replicate n .retryEv) := by
  intro n
  induction n with
  | zero =>
      intro m s hnm hs
      simp [runRetryLoop, hs, bump]
  | succ k ih =>
      intro m s hnm hs
      obtain ⟨m', rfl⟩ : ∃ m', m = m' + 1 := ⟨m - 1, by omega⟩
      have step :
          runRetryLoop (List.replicate (k + 1) .fail ++ [.success t]) (m' + 1) s
            = ((runRetryLoop (List.replicate k .fail ++ [.success t]) m' (bump s)).1,
               (runRetryLoop (List.replicate k .fail ++ [.success t]) m' (bump s)).2.1,
               .retryEv ::
                 (runRetryLoop (List.replicate k .fail ++ [.success t]) m' (bump s)).2.2) := by
        rw [List.replicate_succ]
        simp only [runRetryLoop, hs, List.cons_append, List.append_eq,
          reduceCtorEq, if_false]
      rw [step, ih m' (bump s) (by omega) (by simp [bump, hs])]
      simp [bump, List.replicate_succ, Prod.ext_iff, HState.mk.injEq]
      omega

theorem filter_nonstatus_replicate (n : Nat) :
    List.filter (fun e => !e.isStatus) (List.replicate n Ev.retryEv)
      = List.replicate n Ev.retryEv := by
  induction n with
  | zero => rfl
  | succ k ih => simp [List.replicate_succ, List.filter_cons, Ev.isStatus, ih]

/-- C4: for every sequence of `n` factory failures followed by a success
with `n` within the retry budget, the `__connect` run ends with the
handler `Connected`, and the non-`status` event stream is exactly one
`retry` per failed attempt followed by exactly one `open`. -/
theorem C4_retries_then_open (T : Type) (t : T) (n retries : Nat) (s : HState T)
    (hn : n ≤ retries) :
    (connectRun retries (List.replicate n .fail ++ [.success t]) s).1.status = .Connected
  ∧ emitted (connectRun retries (List.replicate n .fail ++ [.success t]) s).2
      = List.replicate n .retryEv ++ [.openEv] := by
  unfold connectRun
  rw [runRetryLoop_script T t n retries _ hn (by simp)]
  constructor
  · simp [resolveFulfilled, thenConnected]
  · simp [resolveFulfilled, thenConnected, emitted, List.filter_cons,
      List.filter_append, Ev.isStatus, filter_nonstatus_replicate]

/-- Witness for C4: three failures then a success under the default
budget of ten retries. -/
theorem C4_retries_then_open_witness :
    (connectRun 10 (List.replicate 3 .fail ++ [.success 1])
        (⟨.Connecting, none, .pending, false, false, false, 0, []⟩ : HState Nat)).1.status
      = .Connected
  ∧ emitted (connectRun 10 (List.replicate 3 .fail ++ [.success 1])
        (⟨.Connecting, none, .pending, false, false, false, 0, []⟩ : HState Nat)).2
      = List.replicate 3 .retryEv ++ [.openEv] :=
  C4_retries_then_open Nat 1 3 10 _ (by decide)

/-- C8: `Sender.send` obtains the current channel through the handler's
`resource()`, failing with the `Unavailable` error when the acquisition
resolved to no channel; with a channel in hand it publishes the UTF-8
bytes of the JSON serialization of the payload to the sender's
configured exchange under the given routing key and options, and returns
the broker's flow-control acknowledgement boolean. -/
theorem C8_sender_send (sn : SenderState) (topic : String) (payload : Json)
    (options : Nat) :
    (∀ ch, resourceOp sn.handler = .ok ch →
        senderSend sn topic payload options
          = .ok ch.flow ⟨sn.exchange, topic, utf8Bytes (jsonStringify payload), options⟩)
  ∧ (resourceOp sn.handler = .rejectsNotAvailable →
        senderSend sn topic payload options = .errUnavailable) := by
  constructor
  · intro ch hch
    simp [senderSend, hch]
  · intro hna
    simp [senderSend, hna]

/-- Witness for C8: a connected sender publishes, a sender whose
acquisition resolved to `null` fails with `Unavailable`. -/
theorem C8_sender_send_witness :
    senderSend ⟨"logs", ⟨.Connected, none, .value (some ⟨true⟩), false, false, true, 1, []⟩⟩
        "user.created" (.str "hi") 0
      = .ok true ⟨"logs", "user.created", utf8Bytes (jsonStringify (.str "hi")), 0⟩
  ∧ senderSend ⟨"logs", ⟨.Error, some .factoryFailure, .value none, false, false, false, 1, []⟩⟩
        "user.created" (.str "hi") 0
      = .errUnavailable :=
  ⟨(C8_sender_send ⟨"logs", ⟨.Connected, none, .value (some ⟨true⟩), false, false, true, 1, []⟩⟩
      "user.created" (.str "hi") 0).1 ⟨true⟩ (by decide),
   (C8_sender_send ⟨"logs", ⟨.Error, some .factoryFailure, .value none, false, false, false, 1, []⟩⟩
      "user.created" (.str "hi") 0).2 (by decide)⟩

/-- C9: the Subscriber's channel factory registers the consumption
callback on the target queue with `noAck` (auto-ack) set before the step
that returns the channel, and the callback re-emits every non-null
delivered message — with its routing key and payload bytes — as a
`message` event, dropping null deliveries. -/
theorem C9_subscriber_consume (q : String) (m : ConsumeMessage) :
    (∃ i j, i < j
      ∧ (subscriberFactorySteps q).get? i = some (.consume q true)
      ∧ (subscriberFactorySteps q).get? j = some .returnChannel)
  ∧ subscriberOnMessage none = []
  ∧ subscriberOnMessage (some m) = [.message m]
  ∧ ∀ e ∈ subscriberOnMessage (some m), e = .message ⟨m.routingKey, m.content⟩ := by
  refine ⟨⟨1, 2, by omega, rfl, rfl⟩, rfl, rfl, ?_⟩
  intro e he
  simp [subscriberOnMessage] at he
  simp [he]

/-- Witness for C9 at a concrete queue and delivered message. -/
theorem C9_subscriber_consume_witness :
    subscriberOnMessage (some ⟨"user.created", [104, 105]⟩)
      = [.message ⟨"user.created", [104, 105]⟩]
  ∧ SubEv.message ⟨"user.created", [104, 105]⟩
      = .message ⟨"user.created", [104, 105]⟩ :=
  ⟨(C9_subscriber_consume "events" ⟨"user.created", [104, 105]⟩).2.2.1,
   (C9_subscriber_consume "events" ⟨"user.created", [104, 105]⟩).2.2.2
     (.message ⟨"user.created", [104, 105]⟩) (by decide)⟩

/-- C10: `Sender.close()` and `Subscriber.close()` invoke the underlying
handler's `close()` without awaiting it, so the promise the caller
receives always resolves — in every handler state, including an
already-`Closed` handler whose own `close()` rejects with the
`AlreadyClosed` error. -/
theorem C10_close_fire_and_forget (s u : HState Channel) :
    (senderClose s).1 = .ok ()
  ∧ (senderClose s).2 = closeOp s
  ∧ (subscriberClose u).1 = .ok ()
  ∧ (subscriberClose u).2 = closeOp u
  ∧ (s.status = .Closed →
        (closeOp s).out = .rejectedAlreadyClosed ∧ (senderClose s).1 = .ok ()) := by
  refine ⟨rfl, rfl, rfl, rfl, fun h => ⟨?_, rfl⟩⟩
  simp [closeOp, h]

/-- Witness for C10 on a concrete already-closed handler. -/
theorem C10_close_fire_and_forget_witness :
    (senderClose (⟨.Closed, none, .rejectedClosed, false, false, false, 1, []⟩ :
        HState Channel)).1 = .ok ()
  ∧ (closeOp (⟨.Closed, none, .rejectedClosed, false, false, false, 1, []⟩ :
        HState Channel)).out = .rejectedAlreadyClosed :=
  ⟨(C10_close_fire_and_forget
      ⟨.Closed, none, .rejectedClosed, false, false, false, 1, []⟩
      ⟨.Closed, none, .rejectedClosed, false, false, false, 1, []⟩).1,
   ((C10_close_fire_and_forget
      ⟨.Closed, none, .rejectedClosed, false, false, false, 1, []⟩
      ⟨.Closed, none, .rejectedClosed, false, false, false, 1, []⟩).2.2.2.2 (by decide)).1⟩

/-- Witness for C7 at a concrete `Connected` handler. -/
theorem C7_second_close_rejects_witness :
    (closeOp ((closeOp (⟨.Connected, none, .value (some 2), false, false, true, 1, []⟩ :
        HState Nat)).state)).out = .rejectedAlreadyClosed
  ∧ (closeOp ((closeOp (⟨.Connected, none, .value (some 2), false, false, true, 1, []⟩ :
        HState Nat)).state)).events = []
  ∧ Ev.closeEv ∉ (closeOp ((closeOp (⟨.Connected, none, .value (some 2), false, false, true, 1, []⟩ :
        HState Nat)).state)).events :=
  C7_second_close_rejects Nat _ (by decide) (by decide)

end NRAmqp
